import Mathlib

/-!
Shallow embedding of `vs_flann.hpp` (namespace `vs_flann`), the lifecycle /
dispatch facade `MultiThreadIndex` for nearest-neighbour index algorithms,
together with models of the external collaborators it consumes
(`create_index_by_type`, `load_header`, the `NNIndex` algorithm contract,
the `Logger`), which belong to this repository but are not under `src/`.

Machine state that C++ keeps implicitly is made explicit:
the file system is a value threaded through `save` / `load_saved_index`,
a raw `IndexType*` pointer that may be `NULL` becomes `Option NNIndex`,
a thrown `FLANNException` becomes the `thrown` constructor of `CppResult`,
and dereferencing a `NULL` pointer becomes the `ub` constructor.
-/

namespace VsFlann

/-- Algorithm-identifier tags (`flann_algorithm_t`); `saved` is the
"restore from a saved file" sentinel `FLANN_INDEX_SAVED`. -/
inductive flann_algorithm_t where
  | linear
  | kdtree
  | kmeans
  | composite
  | kdtree_single
  | hierarchical
  | lsh
  | saved
  | autotuned
deriving DecidableEq, Repr

/-- Element numeric-type tags (`flann_datatype_t`), the value of
`flann_datatype_value<ElementType>::value` for each element type. -/
inductive flann_datatype_t where
  | int8
  | int16
  | int32
  | int64
  | uint8
  | uint16
  | uint32
  | uint64
  | float32
  | float64
deriving DecidableEq, Repr

/-- A value stored in a parameter bag (`any` in the C++ `IndexParams`). -/
inductive ParamValue where
  | alg (t : flann_algorithm_t)
  | str (s : String)
  | int (n : Int)
deriving DecidableEq, Repr

/-- `IndexParams`: mapping from option name to value. -/
abbrev IndexParams := List (String × ParamValue)

/-- `SearchParams`: opaque options bag passed through to the algorithm. -/
abbrev SearchParams := List (String × ParamValue)

/-- An error signal: `flannException msg` models `throw FLANNException(msg)`;
`badAlloc` models an allocation failure raised while deep-copying. -/
inductive FlannError where
  | flannException (msg : String)
  | badAlloc
deriving DecidableEq, Repr

/-- Outcome of a C++ call: normal return, thrown exception, or undefined
behaviour (dereference of a `NULL` algorithm pointer). -/
inductive CppResult (α : Type) where
  | ok (a : α)
  | thrown (e : FlannError)
  | ub
deriving DecidableEq, Repr

/-- Modelled from the spec: the state of one concrete `NNIndex<Distance>`
algorithm instance (the polymorphic collaborator declared in
`algorithms/vs_all_indices.h`, not under `src/`): its algorithm tag, the
element-type tag of its point data, the stored point set (rows of `Int`
coordinates), whether it has been built, and its self-reported parameters. -/
structure NNIndex where
  indexType : flann_algorithm_t
  dataType : flann_datatype_t
  dataset : List (List Int)
  built : Bool
  params : IndexParams
deriving DecidableEq, Repr

/-- Modelled from the spec: the persisted index file — a fixed-layout header
(element-type tag, algorithm tag) followed by the algorithm-defined payload,
here the algorithm's full serialized state. -/
structure SavedFile where
  data_type : flann_datatype_t
  index_type : flann_algorithm_t
  payload : NNIndex
deriving DecidableEq, Repr

/-- The fixed-layout fields of the persisted header (`IndexHeaderStruct`). -/
structure HeaderFields where
  data_type : flann_datatype_t
  index_type : flann_algorithm_t
deriving DecidableEq, Repr

/-- `IndexHeader` as used by `load_saved_index`: `header.h.data_type`,
`header.h.index_type`. -/
structure IndexHeader where
  h : HeaderFields
deriving DecidableEq, Repr

/-- Modelled from the spec: `load_header` (in `util/vs_saving.h`, not under
`src/`) reads only the fixed-layout header of an opened file. -/
def load_header (fin : SavedFile) : IndexHeader :=
  ⟨⟨fin.data_type, fin.index_type⟩⟩

/-- Modelled from the spec: `saveIndex` — the algorithm serializes itself,
writing its own header fields (its element type, its algorithm tag) and its
structural payload in one continuous stream it controls. -/
def NNIndex.saveIndex (a : NNIndex) : SavedFile :=
  ⟨a.dataType, a.indexType, a⟩

/-- Modelled from the spec: `loadIndex` — the algorithm's deserializer is
self-contained: it re-reads the stream from the start and replaces the
receiver's state with the deserialized state. -/
def NNIndex.loadIndex (_self : NNIndex) (fin : SavedFile) : NNIndex :=
  fin.payload

/-- Modelled from the spec: `buildIndex()` on the algorithm — its internal
build process over the point set it already holds. -/
def NNIndex.buildIndex (a : NNIndex) : NNIndex :=
  { a with built := true }

/-- Modelled from the spec: `buildIndex(points)` on the algorithm — rebuild
over the given point set. -/
def NNIndex.buildIndexPoints (a : NNIndex) (points : List (List Int)) : NNIndex :=
  { a with dataset := points, built := true }

/-- Modelled from the spec: incremental insertion; `rebuild_threshold` is an
advisory growth-factor hint, whose interpretation is algorithm-defined. -/
def NNIndex.addPoints (a : NNIndex) (points : List (List Int)) (_rebuild_threshold : Int) :
    NNIndex :=
  { a with dataset := a.dataset ++ points }

/-- Modelled from the spec: removal by stable identifier (here the row
position at the time of the call). -/
def NNIndex.removePoint (a : NNIndex) (point_id : Nat) : NNIndex :=
  { a with dataset := (a.dataset.enum.filter (fun p => p.1 != point_id)).map (·.2) }

/-- Number of points held by the algorithm. -/
def NNIndex.size (a : NNIndex) : Nat :=
  a.dataset.length

/-- Dimensionality of the points held by the algorithm. -/
def NNIndex.veclen (a : NNIndex) : Nat :=
  (a.dataset.headD []).length

/-- Modelled from the spec: `clone()` — a deep copy, a fresh instance with
equal state. -/
def NNIndex.clone (a : NNIndex) : NNIndex :=
  a

/-- Squared Euclidean distance between two coordinate rows. -/
def dist2 (p q : List Int) : Int :=
  ((p.zip q).map (fun ab => (ab.1 - ab.2) * (ab.1 - ab.2))).sum

/-- Insert an (index, distance) pair into a list kept sorted by distance. -/
def insertByDist (x : Nat × Int) : List (Nat × Int) → List (Nat × Int)
  | [] => [x]
  | y :: ys => if x.2 < y.2 then x :: y :: ys else y :: insertByDist x ys

/-- Sort (index, distance) pairs by distance (stable insertion sort). -/
def sortByDist : List (Nat × Int) → List (Nat × Int)
  | [] => []
  | x :: xs => insertByDist x (sortByDist xs)

/-- Modelled from the spec: the concrete algorithm's k-NN answer for one
query — the `k` stored points closest to the query under the distance
metric, as (stable id, distance) pairs, deterministically ordered. -/
def NNIndex.knnOne (a : NNIndex) (q : List Int) (k : Nat) : List (Nat × Int) :=
  (sortByDist (a.dataset.enum.map (fun ip => (ip.1, dist2 ip.2 q)))).take k

/-- Modelled from the spec: `knnSearch` on the algorithm — one row of
results per query; the `SearchParams` bag is algorithm-defined and unused by
this model algorithm. -/
def NNIndex.knnSearch (a : NNIndex) (queries : List (List Int)) (k : Nat)
    (_params : SearchParams) : List (List (Nat × Int)) :=
  queries.map (fun q => a.knnOne q k)

/-- Modelled from the spec: `getParameters()` on the algorithm — its
self-reported configuration. -/
def NNIndex.getParameters (a : NNIndex) : IndexParams :=
  a.params

/-- Modelled from the spec: `create_index_by_type` (in
`algorithms/vs_all_indices.h`, not under `src/`) constructs a fresh, unbuilt
instance of the concrete algorithm selected by `index_type`, holding the
given dataset and parameters; `elemType` is
`flann_datatype_value<Distance::ElementType>::value`. -/
def create_index_by_type (index_type : flann_algorithm_t) (dataset : List (List Int))
    (params : IndexParams) (elemType : flann_datatype_t) : NNIndex :=
  { indexType := index_type, dataType := elemType, dataset := dataset,
    built := false, params := params }

/-- The file system: named persisted files, plus the set of names that can
be opened for writing. -/
structure FileSystem where
  files : List (String × SavedFile)
  writable : List String
deriving DecidableEq, Repr

/-- `fopen(name, "rb")`: `none` models a `NULL` `FILE*`. -/
def FileSystem.openRead (fs : FileSystem) (name : String) : Option SavedFile :=
  fs.files.lookup name

/-- Whether `fopen(name, "wb")` succeeds. -/
def FileSystem.canWrite (fs : FileSystem) (name : String) : Bool :=
  fs.writable.contains name

/-- Write (create or overwrite) a file. -/
def FileSystem.writeFile (fs : FileSystem) (name : String) (f : SavedFile) : FileSystem :=
  { fs with files := (name, f) :: fs.files.filter (fun p => p.1 != name) }

/-- Modelled from the spec: `get_param<flann_algorithm_t>(params, "algorithm")`
(in `util/vs_params.h`, not under `src/`): yields the value, or throws when
the parameter is missing or holds a different type. -/
def get_param_alg (params : IndexParams) : CppResult flann_algorithm_t :=
  match params.lookup "algorithm" with
  | some (ParamValue.alg t) => .ok t
  | some _ => .thrown (.flannException "Bad any_cast for parameter algorithm")
  | none => .thrown (.flannException "Missing parameter algorithm")

/-- Modelled from the spec: `get_param<std::string>(params, "filename")`. -/
def get_param_filename (params : IndexParams) : CppResult String :=
  match params.lookup "filename" with
  | some (ParamValue.str s) => .ok s
  | some _ => .thrown (.flannException "Bad any_cast for parameter filename")
  | none => .thrown (.flannException "Missing parameter filename")

/-- `SavedIndexParams(filename)`: sets `algorithm = FLANN_INDEX_SAVED` and
`filename`. -/
def SavedIndexParams (filename : String) : IndexParams :=
  [("algorithm", ParamValue.alg flann_algorithm_t.saved),
   ("filename", ParamValue.str filename)]

/-- The facade `MultiThreadIndex<Distance>`: the owned algorithm pointer
(`none` models `NULL`), the `loaded_` flag, and the retained construction
parameters `index_params_`. -/
structure MultiThreadIndex where
  nnIndex_ : Option NNIndex
  loaded_ : Bool
  index_params_ : IndexParams
deriving DecidableEq, Repr

/-- `MultiThreadIndex::load_saved_index`: open the file for binary reading
(returning `NULL` — `.ok none` — when that fails), read the fixed-layout
header, reject an element-type mismatch, build a fresh instance of the
header's algorithm type, rewind, and delegate the read to that instance's
own deserializer. -/
def load_saved_index (fs : FileSystem) (dataset : List (List Int)) (filename : String)
    (elemType : flann_datatype_t) : CppResult (Option NNIndex) :=
  match fs.openRead filename with
  | none => .ok none
  | some fin =>
    let header := load_header fin
    if header.h.data_type ≠ elemType then
      .thrown (.flannException "Datatype of saved index is different than of the one to be loaded.")
    else
      let params : IndexParams := [("algorithm", ParamValue.alg header.h.index_type)]
      let nnIndex := create_index_by_type header.h.index_type dataset params elemType
      .ok (some (nnIndex.loadIndex fin))

/-- `MultiThreadIndex(const IndexParams&, Distance)`: the configuration-only
constructor. A `saved` algorithm tag triggers a full restore from
`filename`; otherwise a fresh unbuilt instance is created (the `else` branch
repeats the `get_param` lookup, mirroring the source's shadowed duplicate). -/
def MultiThreadIndex.construct (fs : FileSystem) (params : IndexParams)
    (elemType : flann_datatype_t) : CppResult MultiThreadIndex :=
  match get_param_alg params with
  | .thrown e => .thrown e
  | .ub => .ub
  | .ok index_type =>
    let features : List (List Int) := []
    if index_type = flann_algorithm_t.saved then
      match get_param_filename params with
      | .thrown e => .thrown e
      | .ub => .ub
      | .ok filename =>
        match load_saved_index fs features filename elemType with
        | .thrown e => .thrown e
        | .ub => .ub
        | .ok nn => .ok { nnIndex_ := nn, loaded_ := true, index_params_ := params }
    else
      match get_param_alg params with
      | .thrown e => .thrown e
      | .ub => .ub
      | .ok index_type2 =>
        .ok { nnIndex_ := some (create_index_by_type index_type2 features params elemType),
              loaded_ := false, index_params_ := params }

/-- `MultiThreadIndex(const Matrix<ElementType>&, const IndexParams&, Distance)`:
identical branching, but a fresh instance is created over the given initial
point set. -/
def MultiThreadIndex.constructPoints (fs : FileSystem) (features : List (List Int))
    (params : IndexParams) (elemType : flann_datatype_t) : CppResult MultiThreadIndex :=
  match get_param_alg params with
  | .thrown e => .thrown e
  | .ub => .ub
  | .ok index_type =>
    if index_type = flann_algorithm_t.saved then
      match get_param_filename params with
      | .thrown e => .thrown e
      | .ub => .ub
      | .ok filename =>
        match load_saved_index fs features filename elemType with
        | .thrown e => .thrown e
        | .ub => .ub
        | .ok nn => .ok { nnIndex_ := nn, loaded_ := true, index_params_ := params }
    else
      match get_param_alg params with
      | .thrown e => .thrown e
      | .ub => .ub
      | .ok index_type2 =>
        .ok { nnIndex_ := some (create_index_by_type index_type2 features params elemType),
              loaded_ := false, index_params_ := params }

/-- `MultiThreadIndex::buildIndex()` (no-argument form): forwards to the
owned algorithm's build unless `loaded_` is set, in which case it does
nothing at all. -/
def MultiThreadIndex.buildIndex (idx : MultiThreadIndex) : CppResult MultiThreadIndex :=
  if idx.loaded_ = false then
    match idx.nnIndex_ with
    | none => .ub
    | some a => .ok { idx with nnIndex_ := some a.buildIndex }
  else
    .ok idx

/-- `MultiThreadIndex::buildIndex(points)`: forwards unconditionally
(overload of `buildIndex`, named apart because Lean does not overload). -/
def MultiThreadIndex.buildIndexPoints (idx : MultiThreadIndex) (points : List (List Int)) :
    CppResult MultiThreadIndex :=
  match idx.nnIndex_ with
  | none => .ub
  | some a => .ok { idx with nnIndex_ := some (a.buildIndexPoints points) }

/-- `MultiThreadIndex::addPoints(points, rebuild_threshold = 2)`. -/
def MultiThreadIndex.addPoints (idx : MultiThreadIndex) (points : List (List Int))
    (rebuild_threshold : Int) : CppResult MultiThreadIndex :=
  match idx.nnIndex_ with
  | none => .ub
  | some a => .ok { idx with nnIndex_ := some (a.addPoints points rebuild_threshold) }

/-- `MultiThreadIndex::removePoint(point_id)`. -/
def MultiThreadIndex.removePoint (idx : MultiThreadIndex) (point_id : Nat) :
    CppResult MultiThreadIndex :=
  match idx.nnIndex_ with
  | none => .ub
  | some a => .ok { idx with nnIndex_ := some (a.removePoint point_id) }

/-- `MultiThreadIndex::save(filename)`: open for binary writing, throw
`FLANNException("Cannot open file")` on failure, else let the algorithm
serialize itself into the stream and close it. Returns the resulting file
system together with the call outcome. -/
def MultiThreadIndex.save (idx : MultiThreadIndex) (fs : FileSystem) (filename : String) :
    FileSystem × CppResult Unit :=
  if fs.canWrite filename = false then
    (fs, .thrown (.flannException "Cannot open file"))
  else
    match idx.nnIndex_ with
    | none => (fs, .ub)
    | some a => (fs.writeFile filename a.saveIndex, .ok ())

/-- `MultiThreadIndex::size()`. -/
def MultiThreadIndex.size (idx : MultiThreadIndex) : CppResult Nat :=
  match idx.nnIndex_ with
  | none => .ub
  | some a => .ok a.size

/-- `MultiThreadIndex::veclen()`. -/
def MultiThreadIndex.veclen (idx : MultiThreadIndex) : CppResult Nat :=
  match idx.nnIndex_ with
  | none => .ub
  | some a => .ok a.veclen

/-- `MultiThreadIndex::getType()`. -/
def MultiThreadIndex.getType (idx : MultiThreadIndex) : CppResult flann_algorithm_t :=
  match idx.nnIndex_ with
  | none => .ub
  | some a => .ok a.indexType

/-- `MultiThreadIndex::getParameters()`: reads the owned algorithm's
self-reported configuration, not the retained `index_params_`. -/
def MultiThreadIndex.getParameters (idx : MultiThreadIndex) : CppResult IndexParams :=
  match idx.nnIndex_ with
  | none => .ub
  | some a => .ok a.getParameters

/-- `MultiThreadIndex::knnSearch(queries, indices, dists, knn, params)`:
pure forwarding to the owned algorithm. -/
def MultiThreadIndex.knnSearch (idx : MultiThreadIndex) (queries : List (List Int))
    (knn : Nat) (params : SearchParams) : CppResult (List (List (Nat × Int))) :=
  match idx.nnIndex_ with
  | none => .ub
  | some a => .ok (a.knnSearch queries knn params)

/-- `log_verbosity(level)`: `if (level >= 0) Logger::setLevel(level);` —
`cur` is the process-wide logger level before the call, the result the
level after it (`Logger::setLevel` is the external logging subsystem,
modelled from the spec as the process-wide level setter). -/
def log_verbosity (cur : Int) (level : Int) : Int :=
  if level ≥ 0 then level else cur

/-! ### Heap model for copy construction and assignment

Deep-clone versus sharing is a statement about aliasing, so the copy
constructor, `operator=` and `swap` are embedded over an explicit heap of
algorithm instances addressed by pointers. -/

/-- A heap of allocated `NNIndex` instances; a pointer is an index into it. -/
structure Heap where
  cells : List NNIndex
deriving DecidableEq, Repr

/-- Dereference a pointer. -/
def Heap.get (h : Heap) (p : Nat) : Option NNIndex :=
  h.cells[p]?

/-- Allocate a fresh cell; when `canAlloc` is false the allocation throws
(`std::bad_alloc`), leaving the heap unchanged. -/
def Heap.alloc (h : Heap) (canAlloc : Bool) (v : NNIndex) :
    Heap × CppResult Nat :=
  if canAlloc then (⟨h.cells ++ [v]⟩, .ok h.cells.length)
  else (h, .thrown .badAlloc)

/-- Overwrite the cell a pointer designates (mutation through the owned
algorithm pointer). -/
def Heap.set (h : Heap) (p : Nat) (v : NNIndex) : Heap :=
  ⟨h.cells.set p v⟩

/-- The facade with its owned algorithm held by pointer, as in the C++
object (`IndexType* nnIndex_`). -/
structure FacadeH where
  nnIndex_ : Nat
  loaded_ : Bool
  index_params_ : IndexParams
deriving DecidableEq, Repr

/-- `MultiThreadIndex(const MultiThreadIndex& other)`: copies `loaded_` and
`index_params_`, and sets `nnIndex_ = other.nnIndex_->clone()` — a fresh
heap cell holding a deep copy. `canAlloc` is whether that allocation
succeeds. -/
def copyCtor (h : Heap) (canAlloc : Bool) (other : FacadeH) :
    Heap × CppResult FacadeH :=
  match h.get other.nnIndex_ with
  | none => (h, .ub)
  | some a =>
    match h.alloc canAlloc a.clone with
    | (h', .ok p) =>
      (h', .ok { nnIndex_ := p, loaded_ := other.loaded_, index_params_ := other.index_params_ })
    | (h', .thrown e) => (h', .thrown e)
    | (h', .ub) => (h', .ub)

/-- `MultiThreadIndex::swap(other)`: swaps `nnIndex_`, `loaded_` and
`index_params_` member by member. -/
def FacadeH.swap (x y : FacadeH) : FacadeH × FacadeH :=
  (⟨y.nnIndex_, y.loaded_, y.index_params_⟩, ⟨x.nnIndex_, x.loaded_, x.index_params_⟩)

/-- `operator=(MultiThreadIndex other)`, taken together with the by-value
parameter construction at the call site: first copy-construct `other` from
the source, then swap it with the target. When the copy throws, the body
never runs and both operands are untouched. Returns the heap and the new
state of the target. -/
def FacadeH.assign (h : Heap) (canAlloc : Bool) (target source : FacadeH) :
    Heap × CppResult FacadeH :=
  match copyCtor h canAlloc source with
  | (h', .ok other) => (h', .ok (FacadeH.swap target other).1)
  | (h', .thrown e) => (h', .thrown e)
  | (h', .ub) => (h', .ub)

/-! ### Concrete sample values used by the witnesses -/

/-- A built linear index over four 2-D points. -/
def sampleAlg : NNIndex :=
  { indexType := .linear, dataType := .float32,
    dataset := [[0, 0], [1, 0], [0, 1], [5, 5]], built := true,
    params := [("algorithm", ParamValue.alg .linear)] }

/-- A fresh (not restored) facade owning `sampleAlg`. -/
def sampleFacade : MultiThreadIndex :=
  ⟨some sampleAlg, false, [("algorithm", ParamValue.alg .linear)]⟩

/-- A restored facade owning `sampleAlg`. -/
def sampleLoadedFacade : MultiThreadIndex :=
  ⟨some sampleAlg, true, SavedIndexParams "out.bin"⟩

/-- A file system with no files and nothing writable. -/
def emptyFS : FileSystem := ⟨[], []⟩

/-- A file system with no files where `"out.bin"` can be created. -/
def writableFS : FileSystem := ⟨[], ["out.bin"]⟩

/-! ### Shared helper lemmas -/

/-- On the `.ok` path of the configuration-only constructor, the
construction parameters are retained verbatim in `index_params_`, and
`loaded_` records exactly whether the `saved` restore path ran. -/
theorem construct_ok_inv (fs : FileSystem) (params : IndexParams) (elemType : flann_datatype_t)
    (idx' : MultiThreadIndex)
    (h : MultiThreadIndex.construct fs params elemType = .ok idx') :
    idx'.index_params_ = params ∧
    (idx'.loaded_ = true ↔ get_param_alg params = .ok flann_algorithm_t.saved) := by
  cases halg : get_param_alg params with
  | thrown e => simp [MultiThreadIndex.construct, halg] at h
  | ub => simp [MultiThreadIndex.construct, halg] at h
  | ok t =>
    by_cases ht : t = flann_algorithm_t.saved
    · subst ht
      cases hfn : get_param_filename params with
      | thrown e => simp [MultiThreadIndex.construct, halg, hfn] at h
      | ub => simp [MultiThreadIndex.construct, halg, hfn] at h
      | ok filename =>
        cases hl : load_saved_index fs [] filename elemType with
        | thrown e => simp [MultiThreadIndex.construct, halg, hfn, hl] at h
        | ub => simp [MultiThreadIndex.construct, halg, hfn, hl] at h
        | ok nn =>
          simp [MultiThreadIndex.construct, halg, hfn, hl] at h
          subst h
          simp [halg]
    · simp [MultiThreadIndex.construct, halg, ht] at h
      subst h
      simp [halg, ht]

/-- On the `.ok` path of the points-plus-configuration constructor, the
construction parameters are retained verbatim in `index_params_`, and
`loaded_` records exactly whether the `saved` restore path ran. -/
theorem constructPoints_ok_inv (fs : FileSystem) (features : List (List Int))
    (params : IndexParams) (elemType : flann_datatype_t) (idx' : MultiThreadIndex)
    (h : MultiThreadIndex.constructPoints fs features params elemType = .ok idx') :
    idx'.index_params_ = params ∧
    (idx'.loaded_ = true ↔ get_param_alg params = .ok flann_algorithm_t.saved) := by
  cases halg : get_param_alg params with
  | thrown e => simp [MultiThreadIndex.constructPoints, halg] at h
  | ub => simp [MultiThreadIndex.constructPoints, halg] at h
  | ok t =>
    by_cases ht : t = flann_algorithm_t.saved
    · subst ht
      cases hfn : get_param_filename params with
      | thrown e => simp [MultiThreadIndex.constructPoints, halg, hfn] at h
      | ub => simp [MultiThreadIndex.constructPoints, halg, hfn] at h
      | ok filename =>
        cases hl : load_saved_index fs features filename elemType with
        | thrown e => simp [MultiThreadIndex.constructPoints, halg, hfn, hl] at h
        | ub => simp [MultiThreadIndex.constructPoints, halg, hfn, hl] at h
        | ok nn =>
          simp [MultiThreadIndex.constructPoints, halg, hfn, hl] at h
          subst h
          simp [halg]
    · simp [MultiThreadIndex.constructPoints, halg, ht] at h
      subst h
      simp [halg, ht]

/-! ### Claim theorems -/

/-- C10: `log_verbosity(level)` sets the process-wide logger level to
`level` when `level` is non-negative, and for every negative `level` it
leaves the logger level unchanged. -/
theorem log_verbosity_sets_iff_nonneg (cur level : Int) :
    (0 ≤ level → log_verbosity cur level = level) ∧
    (level < 0 → log_verbosity cur level = cur) := by
  constructor
  · intro h
    simp [log_verbosity, ge_iff_le, h]
  · intro h
    simp [log_verbosity, ge_iff_le, not_le.mpr h]

/-- C10 witness: a non-negative level is installed, a negative one is
ignored. -/
theorem log_verbosity_sets_iff_nonneg_witness :
    log_verbosity 5 3 = 3 ∧ log_verbosity 5 (-2) = 5 :=
  ⟨(log_verbosity_sets_iff_nonneg 5 3).1 (by decide),
   (log_verbosity_sets_iff_nonneg 5 (-2)).2 (by decide)⟩

/-- C2: the no-argument `buildIndex()` invokes the owned algorithm's build
exactly when `loaded_` is false (when `loaded_` is true it is a no-op
leaving the facade untouched), while `buildIndex(points)` forwards the
build unconditionally, whatever `loaded_` is. -/
theorem buildIndex_skips_iff_loaded (idx : MultiThreadIndex) (a : NNIndex)
    (points : List (List Int)) :
    (idx.loaded_ = true → idx.buildIndex = .ok idx) ∧
    (idx.loaded_ = false → idx.nnIndex_ = some a →
      idx.buildIndex = .ok { idx with nnIndex_ := some a.buildIndex }) ∧
    (idx.nnIndex_ = some a →
      idx.buildIndexPoints points
        = .ok { idx with nnIndex_ := some (a.buildIndexPoints points) }) := by
  refine ⟨?_, ?_, ?_⟩
  · intro h
    simp [MultiThreadIndex.buildIndex, h]
  · intro h ha
    simp [MultiThreadIndex.buildIndex, h, ha]
  · intro ha
    simp [MultiThreadIndex.buildIndexPoints, ha]

/-- C2 witness: on a restored facade `buildIndex()` is the identity; on a
fresh facade it builds the owned algorithm; `buildIndex(points)` forwards
on both. -/
theorem buildIndex_skips_iff_loaded_witness :
    sampleLoadedFacade.buildIndex = .ok sampleLoadedFacade ∧
    sampleFacade.buildIndex
      = .ok { sampleFacade with nnIndex_ := some sampleAlg.buildIndex } ∧
    sampleLoadedFacade.buildIndexPoints [[1, 2]]
      = .ok { sampleLoadedFacade with nnIndex_ := some (sampleAlg.buildIndexPoints [[1, 2]]) } :=
  ⟨(buildIndex_skips_iff_loaded sampleLoadedFacade sampleAlg []).1 rfl,
   (buildIndex_skips_iff_loaded sampleFacade sampleAlg []).2.1 rfl rfl,
   (buildIndex_skips_iff_loaded sampleLoadedFacade sampleAlg [[1, 2]]).2.2 rfl⟩

/-- C5: `save(filename)` throws exactly `"Cannot open file"` and leaves the
file system unwritten when the file cannot be opened for writing; on
success the owned algorithm's one-stream serialization is written to the
file and the call returns normally. -/
theorem save_throws_or_serializes (idx : MultiThreadIndex) (fs : FileSystem)
    (filename : String) (a : NNIndex) :
    (fs.canWrite filename = false →
      idx.save fs filename = (fs, .thrown (.flannException "Cannot open file"))) ∧
    (fs.canWrite filename = true → idx.nnIndex_ = some a →
      idx.save fs filename = (fs.writeFile filename a.saveIndex, .ok ())) := by
  constructor
  · intro h
    simp [MultiThreadIndex.save, h]
  · intro h ha
    simp [MultiThreadIndex.save, h, ha]

/-- C5 witness: saving to a non-writable name throws and writes nothing;
saving to a writable name stores the algorithm's serialization. -/
theorem save_throws_or_serializes_witness :
    sampleFacade.save emptyFS "out.bin"
      = (emptyFS, .thrown (.flannException "Cannot open file")) ∧
    sampleFacade.save writableFS "out.bin"
      = (writableFS.writeFile "out.bin" sampleAlg.saveIndex, .ok ()) :=
  ⟨(save_throws_or_serializes sampleFacade emptyFS "out.bin" sampleAlg).1 rfl,
   (save_throws_or_serializes sampleFacade writableFS "out.bin" sampleAlg).2 rfl rfl⟩

/-- C1 counterexample: with an empty file system, restore construction via
`SavedIndexParams` does not fail with a "cannot open file" error signal —
it returns normally, holding a null owned algorithm: the open failure is
silently ignored. -/
theorem construct_missing_file_counterexample :
    MultiThreadIndex.construct emptyFS (SavedIndexParams "index.bin") flann_datatype_t.float32
      = CppResult.ok ⟨none, true, SavedIndexParams "index.bin"⟩ ∧
    MultiThreadIndex.construct emptyFS (SavedIndexParams "index.bin") flann_datatype_t.float32
      ≠ CppResult.thrown (FlannError.flannException "Cannot open file") := by
  decide

/-- C1 (amended): when `filename` cannot be opened for reading during a
restore construction, `load_saved_index` returns a null pointer and no
error signal is raised: construction completes normally with a null owned
algorithm and `loaded_` true, and subsequent method calls on the resulting
facade dereference the null pointer, hence have undefined behaviour. -/
theorem construct_missing_file_silently_null (fs : FileSystem) (params : IndexParams)
    (filename : String) (elemType : flann_datatype_t)
    (halg : get_param_alg params = .ok flann_algorithm_t.saved)
    (hfn : get_param_filename params = .ok filename)
    (hopen : fs.openRead filename = none) :
    MultiThreadIndex.construct fs params elemType
      = .ok ⟨none, true, params⟩ ∧
    MultiThreadIndex.size ⟨none, true, params⟩ = .ub ∧
    MultiThreadIndex.veclen ⟨none, true, params⟩ = .ub ∧
    MultiThreadIndex.knnSearch ⟨none, true, params⟩ [[0, 0]] 1 [] = .ub := by
  refine ⟨?_, rfl, rfl, rfl⟩
  simp [MultiThreadIndex.construct, halg, hfn, load_saved_index, hopen]

/-- C1 (amended) witness: the concrete missing-file construction and the
undefined behaviour of the facade it yields. -/
theorem construct_missing_file_silently_null_witness :
    MultiThreadIndex.construct emptyFS (SavedIndexParams "index.bin") flann_datatype_t.float32
      = .ok ⟨none, true, SavedIndexParams "index.bin"⟩ ∧
    MultiThreadIndex.size ⟨none, true, SavedIndexParams "index.bin"⟩ = .ub ∧
    MultiThreadIndex.veclen ⟨none, true, SavedIndexParams "index.bin"⟩ = .ub ∧
    MultiThreadIndex.knnSearch ⟨none, true, SavedIndexParams "index.bin"⟩ [[0, 0]] 1 [] = .ub :=
  construct_missing_file_silently_null emptyFS (SavedIndexParams "index.bin") "index.bin"
    flann_datatype_t.float32 rfl rfl rfl

/-- C3: during a restore, an element-type tag in the file header that
differs from the runtime element type makes the load — and hence the whole
construction — throw exactly the format-mismatch exception
`"Datatype of saved index is different than of the one to be loaded."`;
no other error class is raised and no index is produced. -/
theorem load_datatype_mismatch_throws (fs : FileSystem) (dataset : List (List Int))
    (params : IndexParams) (filename : String) (elemType : flann_datatype_t) (fin : SavedFile)
    (hopen : fs.openRead filename = some fin)
    (hne : fin.data_type ≠ elemType) :
    load_saved_index fs dataset filename elemType
      = .thrown (.flannException
          "Datatype of saved index is different than of the one to be loaded.") ∧
    (get_param_alg params = .ok flann_algorithm_t.saved →
      get_param_filename params = .ok filename →
      MultiThreadIndex.construct fs params elemType
        = .thrown (.flannException
            "Datatype of saved index is different than of the one to be loaded.")) := by
  have hload : load_saved_index fs dataset filename elemType
      = .thrown (.flannException
          "Datatype of saved index is different than of the one to be loaded.") := by
    simp [load_saved_index, hopen, load_header, hne]
  refine ⟨hload, ?_⟩
  intro halg hfn
  have hload0 : load_saved_index fs [] filename elemType
      = .thrown (.flannException
          "Datatype of saved index is different than of the one to be loaded.") := by
    simp [load_saved_index, hopen, load_header, hne]
  simp [MultiThreadIndex.construct, halg, hfn, hload0]

/-- C3 witness: restoring a `float64` file as `float32` throws exactly the
format-mismatch exception. -/
theorem load_datatype_mismatch_throws_witness :
    load_saved_index
        ⟨[("out.bin", NNIndex.saveIndex { sampleAlg with dataType := .float64 })], []⟩
        [] "out.bin" flann_datatype_t.float32
      = .thrown (.flannException
          "Datatype of saved index is different than of the one to be loaded.") ∧
    MultiThreadIndex.construct
        ⟨[("out.bin", NNIndex.saveIndex { sampleAlg with dataType := .float64 })], []⟩
        (SavedIndexParams "out.bin") flann_datatype_t.float32
      = .thrown (.flannException
          "Datatype of saved index is different than of the one to be loaded.") :=
  ⟨(load_datatype_mismatch_throws
      ⟨[("out.bin", NNIndex.saveIndex { sampleAlg with dataType := .float64 })], []⟩
      [] (SavedIndexParams "out.bin") "out.bin" flann_datatype_t.float32
      (NNIndex.saveIndex { sampleAlg with dataType := .float64 }) rfl (by decide)).1,
   (load_datatype_mismatch_throws
      ⟨[("out.bin", NNIndex.saveIndex { sampleAlg with dataType := .float64 })], []⟩
      [] (SavedIndexParams "out.bin") "out.bin" flann_datatype_t.float32
      (NNIndex.saveIndex { sampleAlg with dataType := .float64 }) rfl (by decide)).2
      rfl rfl⟩

/-- C4: a successful restore construction reads the fixed-layout header,
validates the element type, constructs a fresh instance of the concrete
algorithm named by the header's algorithm tag (over the constructor's empty
feature set), delegates the rewound stream to that instance's own
deserializer, and installs the result as the owned algorithm with
`loaded_` set to true. -/
theorem load_saved_index_success_path (fs : FileSystem) (params : IndexParams)
    (filename : String) (elemType : flann_datatype_t) (fin : SavedFile)
    (halg : get_param_alg params = .ok flann_algorithm_t.saved)
    (hfn : get_param_filename params = .ok filename)
    (hopen : fs.openRead filename = some fin)
    (hdt : fin.data_type = elemType) :
    MultiThreadIndex.construct fs params elemType
      = .ok { nnIndex_ := some (NNIndex.loadIndex
                  (create_index_by_type (load_header fin).h.index_type []
                    [("algorithm", ParamValue.alg (load_header fin).h.index_type)] elemType)
                  fin),
              loaded_ := true, index_params_ := params } := by
  have hload : load_saved_index fs [] filename elemType
      = .ok (some (NNIndex.loadIndex
          (create_index_by_type (load_header fin).h.index_type []
            [("algorithm", ParamValue.alg (load_header fin).h.index_type)] elemType) fin)) := by
    simp [load_saved_index, hopen, load_header, hdt]
  simp [MultiThreadIndex.construct, halg, hfn, hload]

/-- C4 witness: restoring a concrete saved `linear`/`float32` index runs
the full header-validate-create-delegate pipeline. -/
theorem load_saved_index_success_path_witness :
    MultiThreadIndex.construct ⟨[("out.bin", sampleAlg.saveIndex)], []⟩
        (SavedIndexParams "out.bin") flann_datatype_t.float32
      = .ok { nnIndex_ := some (NNIndex.loadIndex
                  (create_index_by_type (load_header sampleAlg.saveIndex).h.index_type []
                    [("algorithm",
                      ParamValue.alg (load_header sampleAlg.saveIndex).h.index_type)]
                    flann_datatype_t.float32)
                  sampleAlg.saveIndex),
              loaded_ := true, index_params_ := SavedIndexParams "out.bin" } :=
  load_saved_index_success_path ⟨[("out.bin", sampleAlg.saveIndex)], []⟩
    (SavedIndexParams "out.bin") "out.bin" flann_datatype_t.float32
    sampleAlg.saveIndex rfl rfl rfl rfl

/-- C7: for an index built over a point set, `save(filename)` followed by a
fresh restore construction with the same element type yields an index whose
`size()`, `veclen()` and k-NN query results for a fixed query set and fixed
`k` are identical to those of the pre-save index. -/
theorem save_load_round_trip (fs : FileSystem) (idx : MultiThreadIndex) (a : NNIndex)
    (filename : String) (elemType : flann_datatype_t)
    (queries : List (List Int)) (k : Nat) (sparams : SearchParams)
    (hw : fs.canWrite filename = true)
    (ha : idx.nnIndex_ = some a)
    (ht : a.dataType = elemType) :
    MultiThreadIndex.construct (idx.save fs filename).1 (SavedIndexParams filename) elemType
      = .ok ⟨some a, true, SavedIndexParams filename⟩ ∧
    MultiThreadIndex.size ⟨some a, true, SavedIndexParams filename⟩ = idx.size ∧
    MultiThreadIndex.veclen ⟨some a, true, SavedIndexParams filename⟩ = idx.veclen ∧
    MultiThreadIndex.knnSearch ⟨some a, true, SavedIndexParams filename⟩ queries k sparams
      = idx.knnSearch queries k sparams := by
  have hsave : (idx.save fs filename).1 = fs.writeFile filename a.saveIndex := by
    simp [MultiThreadIndex.save, hw, ha]
  have hopen : (fs.writeFile filename a.saveIndex).openRead filename = some a.saveIndex := by
    simp [FileSystem.openRead, FileSystem.writeFile, List.lookup]
  have halg : get_param_alg (SavedIndexParams filename) = .ok flann_algorithm_t.saved := by
    simp [get_param_alg, SavedIndexParams, List.lookup]
  have hfn : get_param_filename (SavedIndexParams filename) = .ok filename := by
    simp [get_param_filename, SavedIndexParams, List.lookup]
  have hload : load_saved_index (fs.writeFile filename a.saveIndex) [] filename elemType
      = .ok (some a) := by
    simp only [load_saved_index]
    rw [hopen]
    simp [load_header, NNIndex.saveIndex, NNIndex.loadIndex, ht]
  refine ⟨?_, ?_, ?_, ?_⟩
  · rw [hsave]
    simp [MultiThreadIndex.construct, halg, hfn, hload]
  · simp [MultiThreadIndex.size, ha]
  · simp [MultiThreadIndex.veclen, ha]
  · simp [MultiThreadIndex.knnSearch, ha]

/-- C7 witness: the concrete four-point linear index survives a
save-then-restore round trip with identical `size`, `veclen` and 2-NN
results. -/
theorem save_load_round_trip_witness :
    MultiThreadIndex.construct (sampleFacade.save writableFS "out.bin").1
        (SavedIndexParams "out.bin") flann_datatype_t.float32
      = .ok ⟨some sampleAlg, true, SavedIndexParams "out.bin"⟩ ∧
    MultiThreadIndex.size ⟨some sampleAlg, true, SavedIndexParams "out.bin"⟩
      = sampleFacade.size ∧
    MultiThreadIndex.veclen ⟨some sampleAlg, true, SavedIndexParams "out.bin"⟩
      = sampleFacade.veclen ∧
    MultiThreadIndex.knnSearch ⟨some sampleAlg, true, SavedIndexParams "out.bin"⟩
        [[0, 0]] 2 []
      = sampleFacade.knnSearch [[0, 0]] 2 [] :=
  save_load_round_trip writableFS sampleFacade sampleAlg "out.bin" flann_datatype_t.float32
    [[0, 0]] 2 [] rfl rfl rfl

/-- C8: the configuration passed at construction is copied into the facade
(`index_params_`) and preserved unchanged by every mutating member
operation, while `getParameters()` returns the owned algorithm's own
self-reported configuration, read from the algorithm rather than from
`index_params_`. -/
theorem params_retained_and_self_reported :
    (∀ fs params elemType idx',
        MultiThreadIndex.construct fs params elemType = .ok idx' →
        idx'.index_params_ = params) ∧
    (∀ fs features params elemType idx',
        MultiThreadIndex.constructPoints fs features params elemType = .ok idx' →
        idx'.index_params_ = params) ∧
    (∀ idx idx' : MultiThreadIndex, idx.buildIndex = .ok idx' →
        idx'.index_params_ = idx.index_params_) ∧
    (∀ (idx idx' : MultiThreadIndex) points, idx.buildIndexPoints points = .ok idx' →
        idx'.index_params_ = idx.index_params_) ∧
    (∀ (idx idx' : MultiThreadIndex) points thr, idx.addPoints points thr = .ok idx' →
        idx'.index_params_ = idx.index_params_) ∧
    (∀ (idx idx' : MultiThreadIndex) pid, idx.removePoint pid = .ok idx' →
        idx'.index_params_ = idx.index_params_) ∧
    (∀ (idx : MultiThreadIndex) (a : NNIndex), idx.nnIndex_ = some a →
        idx.getParameters = .ok a.getParameters) := by
  refine ⟨?_, ?_, ?_, ?_, ?_, ?_, ?_⟩
  · intro fs params elemType idx' h
    exact (construct_ok_inv fs params elemType idx' h).1
  · intro fs features params elemType idx' h
    exact (constructPoints_ok_inv fs features params elemType idx' h).1
  · intro idx idx' h
    cases hl : idx.loaded_ <;> cases hn : idx.nnIndex_ <;>
      simp [MultiThreadIndex.buildIndex, hl, hn] at h <;> simp [← h]
  · intro idx idx' points h
    cases hn : idx.nnIndex_ <;>
      simp [MultiThreadIndex.buildIndexPoints, hn] at h <;> simp [← h]
  · intro idx idx' points thr h
    cases hn : idx.nnIndex_ <;>
      simp [MultiThreadIndex.addPoints, hn] at h <;> simp [← h]
  · intro idx idx' pid h
    cases hn : idx.nnIndex_ <;>
      simp [MultiThreadIndex.removePoint, hn] at h <;> simp [← h]
  · intro idx a hn
    simp [MultiThreadIndex.getParameters, hn]

/-- C8 witness: concrete retention of the construction parameters across
construction and each mutator, and `getParameters` reading the algorithm's
own (different) configuration on a restored facade. -/
theorem params_retained_and_self_reported_witness :
    MultiThreadIndex.index_params_
        ⟨some (create_index_by_type flann_algorithm_t.linear []
          [("algorithm", ParamValue.alg flann_algorithm_t.linear)] flann_datatype_t.float32),
         false, [("algorithm", ParamValue.alg flann_algorithm_t.linear)]⟩
      = [("algorithm", ParamValue.alg flann_algorithm_t.linear)] ∧
    MultiThreadIndex.index_params_
        ⟨some (create_index_by_type flann_algorithm_t.linear [[1, 2]]
          [("algorithm", ParamValue.alg flann_algorithm_t.linear)] flann_datatype_t.float32),
         false, [("algorithm", ParamValue.alg flann_algorithm_t.linear)]⟩
      = [("algorithm", ParamValue.alg flann_algorithm_t.linear)] ∧
    MultiThreadIndex.index_params_
        { sampleFacade with nnIndex_ := some sampleAlg.buildIndex }
      = sampleFacade.index_params_ ∧
    MultiThreadIndex.index_params_
        { sampleFacade with nnIndex_ := some (sampleAlg.buildIndexPoints [[1, 2]]) }
      = sampleFacade.index_params_ ∧
    MultiThreadIndex.index_params_
        { sampleFacade with nnIndex_ := some (sampleAlg.addPoints [[1, 2]] 2) }
      = sampleFacade.index_params_ ∧
    MultiThreadIndex.index_params_
        { sampleFacade with nnIndex_ := some (sampleAlg.removePoint 0) }
      = sampleFacade.index_params_ ∧
    MultiThreadIndex.getParameters sampleLoadedFacade = .ok sampleAlg.getParameters :=
  ⟨params_retained_and_self_reported.1 emptyFS
      [("algorithm", ParamValue.alg flann_algorithm_t.linear)] flann_datatype_t.float32 _
      (by decide),
   params_retained_and_self_reported.2.1 emptyFS [[1, 2]]
      [("algorithm", ParamValue.alg flann_algorithm_t.linear)] flann_datatype_t.float32 _
      (by decide),
   params_retained_and_self_reported.2.2.1 sampleFacade _ (by decide),
   params_retained_and_self_reported.2.2.2.1 sampleFacade _ [[1, 2]] (by decide),
   params_retained_and_self_reported.2.2.2.2.1 sampleFacade _ [[1, 2]] 2 (by decide),
   params_retained_and_self_reported.2.2.2.2.2.1 sampleFacade _ 0 (by decide),
   params_retained_and_self_reported.2.2.2.2.2.2 sampleLoadedFacade sampleAlg rfl⟩

/-- C9: `loaded_` is assigned only during construction — true exactly when
the "load from saved file" path was taken — and is preserved unchanged by
`buildIndex` (both forms), `addPoints` and `removePoint`; no other member
operation yields a modified facade at all in this embedding. -/
theorem loaded_assigned_only_at_construction :
    (∀ fs params elemType idx',
        MultiThreadIndex.construct fs params elemType = .ok idx' →
        (idx'.loaded_ = true ↔ get_param_alg params = .ok flann_algorithm_t.saved)) ∧
    (∀ fs features params elemType idx',
        MultiThreadIndex.constructPoints fs features params elemType = .ok idx' →
        (idx'.loaded_ = true ↔ get_param_alg params = .ok flann_algorithm_t.saved)) ∧
    (∀ idx idx' : MultiThreadIndex, idx.buildIndex = .ok idx' →
        idx'.loaded_ = idx.loaded_) ∧
    (∀ (idx idx' : MultiThreadIndex) points, idx.buildIndexPoints points = .ok idx' →
        idx'.loaded_ = idx.loaded_) ∧
    (∀ (idx idx' : MultiThreadIndex) points thr, idx.addPoints points thr = .ok idx' →
        idx'.loaded_ = idx.loaded_) ∧
    (∀ (idx idx' : MultiThreadIndex) pid, idx.removePoint pid = .ok idx' →
        idx'.loaded_ = idx.loaded_) := by
  refine ⟨?_, ?_, ?_, ?_, ?_, ?_⟩
  · intro fs params elemType idx' h
    exact (construct_ok_inv fs params elemType idx' h).2
  · intro fs features params elemType idx' h
    exact (constructPoints_ok_inv fs features params elemType idx' h).2
  · intro idx idx' h
    cases hl : idx.loaded_ <;> cases hn : idx.nnIndex_ <;>
      simp [MultiThreadIndex.buildIndex, hl, hn] at h <;> simp [← h, hl]
  · intro idx idx' points h
    cases hn : idx.nnIndex_ <;>
      simp [MultiThreadIndex.buildIndexPoints, hn] at h <;> simp [← h]
  · intro idx idx' points thr h
    cases hn : idx.nnIndex_ <;>
      simp [MultiThreadIndex.addPoints, hn] at h <;> simp [← h]
  · intro idx idx' pid h
    cases hn : idx.nnIndex_ <;>
      simp [MultiThreadIndex.removePoint, hn] at h <;> simp [← h]

/-- C9 witness: a restored and a fresh construction set `loaded_` per path,
and each mutator preserves it on a concrete facade. -/
theorem loaded_assigned_only_at_construction_witness :
    (MultiThreadIndex.loaded_ ⟨none, true, SavedIndexParams "index.bin"⟩ = true ↔
      get_param_alg (SavedIndexParams "index.bin") = .ok flann_algorithm_t.saved) ∧
    (MultiThreadIndex.loaded_
        ⟨some (create_index_by_type flann_algorithm_t.linear []
          [("algorithm", ParamValue.alg flann_algorithm_t.linear)] flann_datatype_t.float32),
         false, [("algorithm", ParamValue.alg flann_algorithm_t.linear)]⟩ = true ↔
      get_param_alg [("algorithm", ParamValue.alg flann_algorithm_t.linear)]
        = .ok flann_algorithm_t.saved) ∧
    MultiThreadIndex.loaded_ { sampleFacade with nnIndex_ := some sampleAlg.buildIndex }
      = sampleFacade.loaded_ ∧
    MultiThreadIndex.loaded_
        { sampleFacade with nnIndex_ := some (sampleAlg.buildIndexPoints [[1, 2]]) }
      = sampleFacade.loaded_ ∧
    MultiThreadIndex.loaded_
        { sampleFacade with nnIndex_ := some (sampleAlg.addPoints [[1, 2]] 2) }
      = sampleFacade.loaded_ ∧
    MultiThreadIndex.loaded_
        { sampleFacade with nnIndex_ := some (sampleAlg.removePoint 0) }
      = sampleFacade.loaded_ :=
  ⟨loaded_assigned_only_at_construction.1 emptyFS (SavedIndexParams "index.bin")
      flann_datatype_t.float32 _ (by decide),
   loaded_assigned_only_at_construction.2.1 emptyFS []
      [("algorithm", ParamValue.alg flann_algorithm_t.linear)] flann_datatype_t.float32 _
      (by decide),
   loaded_assigned_only_at_construction.2.2.1 sampleFacade _ (by decide),
   loaded_assigned_only_at_construction.2.2.2.1 sampleFacade _ [[1, 2]] (by decide),
   loaded_assigned_only_at_construction.2.2.2.2.1 sampleFacade _ [[1, 2]] 2 (by decide),
   loaded_assigned_only_at_construction.2.2.2.2.2 sampleFacade _ 0 (by decide)⟩

/-- C6: copy construction deep-clones the owned algorithm into a fresh heap
cell — the copy owns a pointer distinct from the source's, holding an equal
algorithm, and mutation through the copy's pointer leaves the source's cell
untouched — and assignment is copy-and-swap: on success the target ends up
owning a fresh clone of the source's algorithm with the source's `loaded_`
and parameters, and when the copy fails mid-way nothing (heap included) has
changed, so the source facade is untouched. -/
theorem copy_deep_clone_assign_copy_swap (h : Heap) (target source : FacadeH)
    (a v : NNIndex) (hsrc : h.get source.nnIndex_ = some a) :
    copyCtor h true source
      = (⟨h.cells ++ [a.clone]⟩,
         .ok ⟨h.cells.length, source.loaded_, source.index_params_⟩) ∧
    h.cells.length ≠ source.nnIndex_ ∧
    Heap.get ⟨h.cells ++ [a.clone]⟩ h.cells.length = some a ∧
    Heap.get ⟨h.cells ++ [a.clone]⟩ source.nnIndex_ = some a ∧
    Heap.get (Heap.set ⟨h.cells ++ [a.clone]⟩ h.cells.length v) source.nnIndex_ = some a ∧
    FacadeH.assign h true target source
      = (⟨h.cells ++ [a.clone]⟩,
         .ok ⟨h.cells.length, source.loaded_, source.index_params_⟩) ∧
    FacadeH.assign h false target source = (h, .thrown FlannError.badAlloc) := by
  have hlt : source.nnIndex_ < h.cells.length := by
    by_contra hc
    rw [Heap.get] at hsrc
    rw [List.getElem?_eq_none (by omega)] at hsrc
    cases hsrc
  have hcopy : copyCtor h true source
      = (⟨h.cells ++ [a.clone]⟩,
         .ok ⟨h.cells.length, source.loaded_, source.index_params_⟩) := by
    simp [copyCtor, hsrc, Heap.alloc]
  refine ⟨hcopy, by omega, ?_, ?_, ?_, ?_, ?_⟩
  · simp [Heap.get, NNIndex.clone]
  · rw [Heap.get]
    rw [List.getElem?_append_left hlt]
    exact hsrc
  · rw [Heap.get, Heap.set]
    rw [List.getElem?_set_ne (by omega)]
    rw [List.getElem?_append_left hlt]
    exact hsrc
  · simp [FacadeH.assign, hcopy, FacadeH.swap]
  · simp [FacadeH.assign, copyCtor, hsrc, Heap.alloc]

/-- C6 witness: on a two-cell heap, copying a facade that owns cell 0
allocates cell 2 with an equal algorithm, mutating cell 2 leaves cell 0
intact, assignment installs the fresh clone in the target, and a failed
copy leaves the heap as it was. -/
theorem copy_deep_clone_assign_copy_swap_witness :
    copyCtor ⟨[sampleAlg, sampleAlg.buildIndex]⟩ true ⟨0, true, SavedIndexParams "out.bin"⟩
      = (⟨[sampleAlg, sampleAlg.buildIndex] ++ [sampleAlg.clone]⟩,
         .ok ⟨2, true, SavedIndexParams "out.bin"⟩) ∧
    Heap.get ⟨[sampleAlg, sampleAlg.buildIndex] ++ [sampleAlg.clone]⟩ 2 = some sampleAlg ∧
    Heap.get ⟨[sampleAlg, sampleAlg.buildIndex] ++ [sampleAlg.clone]⟩ 0 = some sampleAlg ∧
    Heap.get (Heap.set ⟨[sampleAlg, sampleAlg.buildIndex] ++ [sampleAlg.clone]⟩ 2
        (sampleAlg.addPoints [[7, 7]] 2)) 0 = some sampleAlg ∧
    FacadeH.assign ⟨[sampleAlg, sampleAlg.buildIndex]⟩ true ⟨1, false, []⟩
        ⟨0, true, SavedIndexParams "out.bin"⟩
      = (⟨[sampleAlg, sampleAlg.buildIndex] ++ [sampleAlg.clone]⟩,
         .ok ⟨2, true, SavedIndexParams "out.bin"⟩) ∧
    FacadeH.assign ⟨[sampleAlg, sampleAlg.buildIndex]⟩ false ⟨1, false, []⟩
        ⟨0, true, SavedIndexParams "out.bin"⟩
      = (⟨[sampleAlg, sampleAlg.buildIndex]⟩, .thrown FlannError.badAlloc) :=
  ⟨(copy_deep_clone_assign_copy_swap ⟨[sampleAlg, sampleAlg.buildIndex]⟩ ⟨1, false, []⟩
      ⟨0, true, SavedIndexParams "out.bin"⟩ sampleAlg (sampleAlg.addPoints [[7, 7]] 2) rfl).1,
   (copy_deep_clone_assign_copy_swap ⟨[sampleAlg, sampleAlg.buildIndex]⟩ ⟨1, false, []⟩
      ⟨0, true, SavedIndexParams "out.bin"⟩ sampleAlg (sampleAlg.addPoints [[7, 7]] 2) rfl).2.2.1,
   (copy_deep_clone_assign_copy_swap ⟨[sampleAlg, sampleAlg.buildIndex]⟩ ⟨1, false, []⟩
      ⟨0, true, SavedIndexParams "out.bin"⟩ sampleAlg (sampleAlg.addPoints [[7, 7]] 2) rfl).2.2.2.1,
   (copy_deep_clone_assign_copy_swap ⟨[sampleAlg, sampleAlg.buildIndex]⟩ ⟨1, false, []⟩
      ⟨0, true, SavedIndexParams "out.bin"⟩ sampleAlg (sampleAlg.addPoints [[7, 7]] 2) rfl).2.2.2.2.1,
   (copy_deep_clone_assign_copy_swap ⟨[sampleAlg, sampleAlg.buildIndex]⟩ ⟨1, false, []⟩
      ⟨0, true, SavedIndexParams "out.bin"⟩ sampleAlg (sampleAlg.addPoints [[7, 7]] 2) rfl).2.2.2.2.2.1,
   (copy_deep_clone_assign_copy_swap ⟨[sampleAlg, sampleAlg.buildIndex]⟩ ⟨1, false, []⟩
      ⟨0, true, SavedIndexParams "out.bin"⟩ sampleAlg (sampleAlg.addPoints [[7, 7]] 2) rfl).2.2.2.2.2.2⟩

end VsFlann
